import Mathlib

/-!
Verification of the peer-record component of the ZeroTier One overlay engine
(`src/node/Peer.hpp`), shallowly embedded in Lean 4.

Machine integers are modelled as `Nat` with explicit reduction modulo `2 ^ 64`
where the C++ code relies on `uint64_t` wrap-around.  Collaborator types that
live outside the given sources (`InetAddress`, `Identity`, `Demarc::Port`, the
bounds-checked `Buffer`, and the configuration constants) are modelled from the
specification, as documented on each definition.
-/

namespace ZTPeer

/-- The modulus of `uint64_t` arithmetic. -/
def U64 : Nat := 2 ^ 64

/-- `uint64_t` subtraction `a - b`, for operands already reduced below `2 ^ 64`:
wraps modulo `2 ^ 64`. -/
def sub64 (a b : Nat) : Nat := (a % U64 + (U64 - b % U64)) % U64

/-- Modelled from the spec: the typed socket address collaborator (`InetAddress`,
outside the given sources): a "nullable typed socket address (none / IPv4 /
IPv6)" with "raw byte + port accessors, equality/zero test".  IPv4 addresses
carry 4 raw bytes, IPv6 addresses 16, plus a port. -/
inductive InetAddress
  | null : InetAddress
  | ipv4 (ip : List Nat) (port : Nat) : InetAddress
  | ipv6 (ip : List Nat) (port : Nat) : InetAddress
  deriving DecidableEq

/-- The `InetAddress` zero/validity test: `operator bool` is true exactly when
the address is not the null variant. -/
def InetAddress.notNull : InetAddress → Bool
  | .null => false
  | .ipv4 _ _ => true
  | .ipv6 _ _ => true

/-- Modelled from the spec: the numeric value of the address-type tag byte
written by the codec (`(unsigned char)addr.type()`).  The concrete values come
from the platform address-family constants; the claims rely only on the three
values being distinct. -/
def InetAddress.typeTag : InetAddress → Nat
  | .null => 0
  | .ipv4 _ _ => 2
  | .ipv6 _ _ => 10

/-- The tag byte of the null address variant. -/
def tagNull : Nat := 0
/-- The tag byte of the IPv4 address variant. -/
def tagIPv4 : Nat := 2
/-- The tag byte of the IPv6 address variant. -/
def tagIPv6 : Nat := 10

/-- `Peer::WanPath` (Peer.hpp lines 424-505): one direct IP path to a peer.
`localPort` is the `Demarc::Port` local binding token, modelled from the spec
as its 64-bit integer round-trip image with `0` the "unspecified" sentinel. -/
structure WanPath where
  lastSend : Nat
  lastReceive : Nat
  lastFirewallOpener : Nat
  localPort : Nat
  addr : InetAddress
  fixed : Bool
  deriving DecidableEq

/-- The `WanPath()` constructor: all timestamps zero, local port the
`ANY_PORT` sentinel, null address, not fixed. -/
def WanPath.init : WanPath :=
  { lastSend := 0, lastReceive := 0, lastFirewallOpener := 0,
    localPort := 0, addr := InetAddress.null, fixed := false }

/-- `WanPath::isActive(now)` (Peer.hpp lines 437-441):
`(addr) && ((fixed) || ((now - lastReceive) < ZT_PEER_LINK_ACTIVITY_TIMEOUT))`,
where the subtraction is `uint64_t` (wrapping) arithmetic.
`activityTimeout` is `ZT_PEER_LINK_ACTIVITY_TIMEOUT`, a configuration constant
defined outside the given sources, so it is passed as a parameter. -/
def WanPath.isActive (w : WanPath) (activityTimeout : Nat) (now : Nat) : Bool :=
  w.addr.notNull && (w.fixed || sub64 now w.lastReceive < activityTimeout)

/-- Modelled from the spec: the `Identity` collaborator (outside the given
sources).  The spec requires only an opaque value with encode/decode reporting
bytes consumed; we model it as its byte string. -/
structure Identity where
  bytes : List Nat
  deriving DecidableEq

/-- The `Peer` record (Peer.hpp lines 67-521), field names as in the source. -/
structure Peer where
  _key : List Nat
  _id : Identity
  _ipv4p : WanPath
  _ipv6p : WanPath
  _lastUsed : Nat
  _lastUnicastFrame : Nat
  _lastMulticastFrame : Nat
  _lastAnnouncedTo : Nat
  _vMajor : Nat
  _vMinor : Nat
  _vRevision : Nat
  _latency : Nat
  deriving DecidableEq

/-- `Peer::latency()` (lines 241-246): the stored estimate clamped to 65535. -/
def Peer.latency (p : Peer) : Nat := min p._latency 65535

/-- `Peer::addDirectLatencyMeasurment(l)` (lines 253-261): clamp the sample to
65535; if the old estimate is in (0, 10000) store the mean of old and new,
otherwise store the clamped sample.  The `unsigned int` arithmetic cannot
overflow here since the old estimate is below 10000 and the sample is clamped. -/
def Peer.addDirectLatencyMeasurment (p : Peer) (l : Nat) : Peer :=
  let l1 := if l > 65535 then 65535 else l
  let ol := p._latency
  { p with _latency := if ol > 0 ∧ ol < 10000 then (ol + l1) / 2 else l1 }

/-- `Peer::ipv4Path()` (line 277): `return _ipv4p.addr;`. -/
def Peer.ipv4Path (p : Peer) : InetAddress := p._ipv4p.addr

/-- `Peer::ipv6Path()` (line 282): the source reads `return _ipv4p.addr;`
(it returns the IPv4 path's address, despite its own doc comment). -/
def Peer.ipv6Path (p : Peer) : InetAddress := p._ipv4p.addr

/-- `Peer::forgetDirectPaths(fixedToo)` (lines 311-318): zero each path's
address unless it is fixed and `fixedToo` is false. -/
def Peer.forgetDirectPaths (p : Peer) (fixedToo : Bool) : Peer :=
  { p with
    _ipv4p := { p._ipv4p with
      addr := if fixedToo || !p._ipv4p.fixed then InetAddress.null else p._ipv4p.addr }
    _ipv6p := { p._ipv6p with
      addr := if fixedToo || !p._ipv6p.fixed then InetAddress.null else p._ipv6p.addr } }

/-- `Peer::findCommonGround(a, b, now)` (lines 365-377), translated clause by
clause from the source.  `activityTimeout` is the configuration constant used
by `WanPath::isActive`. -/
def Peer.findCommonGround (activityTimeout : Nat) (a b : Peer) (now : Nat) :
    InetAddress × InetAddress :=
  if a._ipv6p.isActive activityTimeout now && b._ipv6p.isActive activityTimeout now then
    (b._ipv6p.addr, a._ipv6p.addr)
  else if a._ipv4p.isActive activityTimeout now && b._ipv4p.isActive activityTimeout now then
    (b._ipv4p.addr, a._ipv4p.addr)
  else if a._ipv6p.addr.notNull && b._ipv6p.addr.notNull then
    (b._ipv6p.addr, a._ipv6p.addr)
  else if a._ipv4p.addr.notNull && b._ipv4p.addr.notNull then
    (b._ipv4p.addr, a._ipv4p.addr)
  else
    (InetAddress.null, InetAddress.null)

/-- The five-case preference ladder exactly as the specification words it
(spec section 4.6), for comparison with `Peer.findCommonGround`:
1. both active IPv6 → (B's IPv6, A's IPv6); 2. both active IPv4 → the IPv4
pairing; 3. both non-null IPv6 → the IPv6 pairing; 4. both non-null IPv4 →
the IPv4 pairing; 5. otherwise the null pair. -/
def findCommonGroundSpec (activityTimeout : Nat) (a b : Peer) (now : Nat) :
    InetAddress × InetAddress :=
  if a._ipv6p.isActive activityTimeout now && b._ipv6p.isActive activityTimeout now then
    (b._ipv6p.addr, a._ipv6p.addr)
  else if a._ipv4p.isActive activityTimeout now && b._ipv4p.isActive activityTimeout now then
    (b._ipv4p.addr, a._ipv4p.addr)
  else if a._ipv6p.addr.notNull && b._ipv6p.addr.notNull then
    (b._ipv6p.addr, a._ipv6p.addr)
  else if a._ipv4p.addr.notNull && b._ipv4p.addr.notNull then
    (b._ipv4p.addr, a._ipv4p.addr)
  else
    (InetAddress.null, InetAddress.null)

/-- `ZT_PEER_SERIALIZATION_VERSION` (Peer.hpp line 52). -/
def ZT_PEER_SERIALIZATION_VERSION : Nat := 6

/-- Modelled from the spec: `ZT_PEER_SECRET_KEY_LENGTH`, the "shared-secret
byte length" configuration constant (Constants.hpp is outside the given
sources); the claims rely only on it being a fixed length. -/
def ZT_PEER_SECRET_KEY_LENGTH : Nat := 32

/-- Big-endian bytes of `v` on exactly `n` bytes (network byte order, as the
bounds-checked buffer collaborator's typed `append` writes integers). -/
def toBytesBE : Nat → Nat → List Nat
  | 0, _ => []
  | n + 1, v => toBytesBE n (v / 256) ++ [v % 256]

/-- The integer read back from a big-endian byte string (the buffer
collaborator's typed random-access read). -/
def fromBytesBE (l : List Nat) : Nat :=
  l.foldl (fun acc b => acc * 256 + b % 256) 0

/-- Modelled from the spec: `Buffer<C>::field(p, n)` of the bounds-checked
buffer collaborator — the `n` bytes starting at `p`, or a bounds-violation
failure when they run past the end. -/
def readBytes (b : List Nat) (p n : Nat) : Except String (List Nat) :=
  if p + n ≤ b.length then Except.ok ((b.drop p).take n)
  else Except.error "Buffer: out of bounds"

/-- Modelled from the spec: the buffer collaborator's typed read
`b.at<uintN_t>(p)` — `n` big-endian bytes at `p` as an integer. -/
def readUIntBE (b : List Nat) (p n : Nat) : Except String Nat :=
  (readBytes b p n).map fromBytesBE

/-- Modelled from the spec: the buffer collaborator's checked `b[p]`. -/
def byteAt (b : List Nat) (p : Nat) : Except String Nat :=
  match b[p]? with
  | some x => Except.ok x
  | none => Except.error "Buffer: out of bounds"

/-- Modelled from the spec: `Identity::serialize` (Identity.hpp is outside the
given sources; the spec requires only an encode/decode pair reporting bytes
consumed).  We encode the identity's opaque bytes behind a 2-byte big-endian
length.  The boolean mirrors the `includePrivate` argument the source passes
as `false`; the model carries no private material so it is unused. -/
def Identity.serialize (i : Identity) (_includePrivate : Bool) : List Nat :=
  toBytesBE 2 i.bytes.length ++ i.bytes

/-- Modelled from the spec: `Identity::deserialize`, returning the decoded
identity and the number of bytes consumed. -/
def Identity.deserialize (b : List Nat) (startAt : Nat) :
    Except String (Identity × Nat) := do
  let n ← readUIntBE b startAt 2
  let bs ← readBytes b (startAt + 2) n
  Except.ok (⟨bs⟩, 2 + n)

/-- `WanPath::serialize` (Peer.hpp lines 443-467): three 64-bit timestamps,
the port token as 64-bit, the address-type tag byte, the address payload
(none / 4 raw bytes + 16-bit port / 16 raw bytes + 16-bit port), then the
fixed flag as one byte. -/
def WanPath.serialize (w : WanPath) : List Nat :=
  toBytesBE 8 w.lastSend ++ toBytesBE 8 w.lastReceive ++
  toBytesBE 8 w.lastFirewallOpener ++ toBytesBE 8 w.localPort ++
  [w.addr.typeTag] ++
  (match w.addr with
   | .null => []
   | .ipv4 ip port => ip ++ toBytesBE 2 port
   | .ipv6 ip port => ip ++ toBytesBE 2 port) ++
  [if w.fixed then 1 else 0]

/-- `WanPath::deserialize` (Peer.hpp lines 469-497), on the prior state `w`
(the C++ method mutates `*this`): reads the fixed header, switches on the tag
byte — an unrecognized tag leaves `addr` untouched and consumes no payload,
as the C++ `switch` has no `default` — then reads the fixed-flag byte.
Returns the new state and bytes consumed. -/
def WanPath.deserialize (w : WanPath) (b : List Nat) (startAt : Nat) :
    Except String (WanPath × Nat) := do
  let lastSend ← readUIntBE b startAt 8
  let lastReceive ← readUIntBE b (startAt + 8) 8
  let lastFirewallOpener ← readUIntBE b (startAt + 16) 8
  let localPort ← readUIntBE b (startAt + 24) 8
  let tag ← byteAt b (startAt + 32)
  let (addr, afterAddr) ←
    if tag = tagNull then
      Except.ok (InetAddress.null, startAt + 33)
    else if tag = tagIPv4 then do
      let ip ← readBytes b (startAt + 33) 4
      let port ← readUIntBE b (startAt + 37) 2
      Except.ok (InetAddress.ipv4 ip port, startAt + 39)
    else if tag = tagIPv6 then do
      let ip ← readBytes b (startAt + 33) 16
      let port ← readUIntBE b (startAt + 49) 2
      Except.ok (InetAddress.ipv6 ip port, startAt + 51)
    else
      Except.ok (w.addr, startAt + 33)
  let fixedByte ← byteAt b afterAddr
  Except.ok
    ({ lastSend := lastSend, lastReceive := lastReceive,
       lastFirewallOpener := lastFirewallOpener, localPort := localPort,
       addr := addr, fixed := fixedByte != 0 },
     afterAddr + 1 - startAt)

/-- `Peer::serialize` (Peer.hpp lines 379-395): version byte, secret key
bytes, identity encoding, both path blocks, four 64-bit timestamps, three
16-bit version components, 16-bit latency. -/
def Peer.serialize (p : Peer) : List Nat :=
  [ZT_PEER_SERIALIZATION_VERSION] ++ p._key ++ p._id.serialize false ++
  p._ipv4p.serialize ++ p._ipv6p.serialize ++
  toBytesBE 8 p._lastUsed ++ toBytesBE 8 p._lastUnicastFrame ++
  toBytesBE 8 p._lastMulticastFrame ++ toBytesBE 8 p._lastAnnouncedTo ++
  toBytesBE 2 p._vMajor ++ toBytesBE 2 p._vMinor ++
  toBytesBE 2 p._vRevision ++ toBytesBE 2 p._latency

/-- `Peer::deserialize` (Peer.hpp lines 396-418), on the prior state `p`
(the C++ method mutates `*this`): checks the version byte, then consumes the
fields in the serialization order, returning the new state and bytes
consumed (`p - startAt`). -/
def Peer.deserialize (p : Peer) (b : List Nat) (startAt : Nat) :
    Except String (Peer × Nat) := do
  let v ← byteAt b startAt
  if v ≠ ZT_PEER_SERIALIZATION_VERSION then
    Except.error "Peer: deserialize(): version mismatch"
  else
    let key ← readBytes b (startAt + 1) ZT_PEER_SECRET_KEY_LENGTH
    let p1 := startAt + 1 + ZT_PEER_SECRET_KEY_LENGTH
    let (id, idLen) ← Identity.deserialize b p1
    let p2 := p1 + idLen
    let (i4, l4) ← p._ipv4p.deserialize b p2
    let p3 := p2 + l4
    let (i6, l6) ← p._ipv6p.deserialize b p3
    let p4 := p3 + l6
    let lastUsed ← readUIntBE b p4 8
    let lastUnicastFrame ← readUIntBE b (p4 + 8) 8
    let lastMulticastFrame ← readUIntBE b (p4 + 16) 8
    let lastAnnouncedTo ← readUIntBE b (p4 + 24) 8
    let vMajor ← readUIntBE b (p4 + 32) 2
    let vMinor ← readUIntBE b (p4 + 34) 2
    let vRevision ← readUIntBE b (p4 + 36) 2
    let latencyVal ← readUIntBE b (p4 + 38) 2
    Except.ok
      ({ _key := key, _id := id, _ipv4p := i4, _ipv6p := i6,
         _lastUsed := lastUsed, _lastUnicastFrame := lastUnicastFrame,
         _lastMulticastFrame := lastMulticastFrame,
         _lastAnnouncedTo := lastAnnouncedTo,
         _vMajor := vMajor, _vMinor := vMinor, _vRevision := vRevision,
         _latency := latencyVal },
       p4 + 40 - startAt)

/-- Addresses as representable in the C++ `InetAddress`: stored raw IP bytes
of the right count and byte range, port within `uint16_t`. -/
def InetAddress.wellFormed : InetAddress → Prop
  | .null => True
  | .ipv4 ip port => ip.length = 4 ∧ (∀ x ∈ ip, x < 256) ∧ port < 65536
  | .ipv6 ip port => ip.length = 16 ∧ (∀ x ∈ ip, x < 256) ∧ port < 65536

instance : DecidablePred InetAddress.wellFormed := fun a =>
  match a with
  | .null => inferInstanceAs (Decidable True)
  | .ipv4 ip port =>
      inferInstanceAs (Decidable (ip.length = 4 ∧ (∀ x ∈ ip, x < 256) ∧ port < 65536))
  | .ipv6 ip port =>
      inferInstanceAs (Decidable (ip.length = 16 ∧ (∀ x ∈ ip, x < 256) ∧ port < 65536))

/-- A `WanPath` state representable in the C++ record: `uint64_t` fields in
range and a well-formed address. -/
def WanPath.wellFormed (w : WanPath) : Prop :=
  w.lastSend < U64 ∧ w.lastReceive < U64 ∧ w.lastFirewallOpener < U64 ∧
  w.localPort < U64 ∧ w.addr.wellFormed

instance (w : WanPath) : Decidable w.wellFormed := by
  unfold WanPath.wellFormed; infer_instance

/-- A `Peer` state representable in the C++ record and within the codec's
field widths: the key of the configured length, `uint64_t` timestamps in
range, both paths well formed, the identity encoding's length field in range,
and the version components and latency within the `uint16_t` the codec
writes. -/
def Peer.wellFormed (p : Peer) : Prop :=
  p._key.length = ZT_PEER_SECRET_KEY_LENGTH ∧
  p._id.bytes.length < 65536 ∧
  p._ipv4p.wellFormed ∧ p._ipv6p.wellFormed ∧
  p._lastUsed < U64 ∧ p._lastUnicastFrame < U64 ∧
  p._lastMulticastFrame < U64 ∧ p._lastAnnouncedTo < U64 ∧
  p._vMajor < 65536 ∧ p._vMinor < 65536 ∧ p._vRevision < 65536 ∧
  p._latency < 65536

instance (p : Peer) : Decidable p.wellFormed := by
  unfold Peer.wellFormed; infer_instance

/-- A representative value of the `ZT_PEER_LINK_ACTIVITY_TIMEOUT` configuration
constant, used only in concrete test instances (the constant itself lives in
Constants.hpp, outside the given sources; theorems quantify over it). -/
def sampleTimeout : Nat := 241000

/-- An all-zero peer record, used as a concrete test fixture. -/
def basePeer : Peer :=
  { _key := List.replicate 32 0, _id := ⟨[]⟩,
    _ipv4p := WanPath.init, _ipv6p := WanPath.init,
    _lastUsed := 0, _lastUnicastFrame := 0, _lastMulticastFrame := 0,
    _lastAnnouncedTo := 0, _vMajor := 0, _vMinor := 0, _vRevision := 0,
    _latency := 0 }

/-- A concrete IPv4 path with a recent receive, used in test instances. -/
def path4Live : WanPath :=
  { WanPath.init with
    addr := InetAddress.ipv4 [10, 0, 0, 1] 9993,
    lastReceive := 1000 }

/-- A concrete IPv6 path with a recent receive, used in test instances. -/
def path6Live : WanPath :=
  { WanPath.init with
    addr := InetAddress.ipv6 [253, 0, 0, 0, 0, 0, 0, 0, 0, 0, 0, 0, 0, 0, 0, 1] 9993,
    lastReceive := 2000 }

/-- A second concrete IPv4 path, used in test instances. -/
def path4LiveB : WanPath :=
  { WanPath.init with addr := InetAddress.ipv4 [192, 168, 1, 7] 42, lastReceive := 1500 }

/-- A second concrete IPv6 path, used in test instances. -/
def path6LiveB : WanPath :=
  { WanPath.init with
    addr := InetAddress.ipv6 [253, 1, 0, 0, 0, 0, 0, 0, 0, 0, 0, 0, 0, 0, 0, 2] 42,
    lastReceive := 2500 }

/-- A peer with distinct live IPv4 and IPv6 paths, used in test instances. -/
def dualStackPeerA : Peer := { basePeer with _ipv4p := path4Live, _ipv6p := path6Live }

/-- A second peer with distinct live IPv4 and IPv6 paths. -/
def dualStackPeerB : Peer := { basePeer with _ipv4p := path4LiveB, _ipv6p := path6LiveB }

/-- A peer whose major version does not fit the codec's 16-bit field. -/
def overflowPeer : Peer := { basePeer with _vMajor := 65536 }

end ZTPeer

namespace ZTPeer

theorem sub64_of_le (a b : Nat) (hb : b ≤ a) (ha : a < U64) : sub64 a b = a - b := by
  have hU : U64 = 18446744073709551616 := by norm_num [U64]
  simp only [sub64, hU] at *
  omega

theorem sub64_of_wrap (a b : Nat) (hab : a < b) (hb : b < U64) :
    sub64 a b = U64 - (b - a) := by
  have hU : U64 = 18446744073709551616 := by norm_num [U64]
  simp only [sub64, hU] at *
  omega

/-- C5: `isActive(now)` is true iff the address is non-null and (`fixed` or
`now - lastReceive < ZT_PEER_LINK_ACTIVITY_TIMEOUT`); with a non-null address
and `fixed` set it is true for every `now` regardless of `lastReceive`; for a
non-fixed path the boundary is exclusive: at `now - lastReceive =` the timeout
and beyond, it is false.  The subtraction parts are stated on the non-wrapping
range `lastReceive ≤ now < 2 ^ 64`, where the code's `uint64_t` subtraction is
the arithmetic one. -/
theorem isActive_characterization (activityTimeout : Nat) (w : WanPath) (now : Nat) :
    (w.fixed = true → w.addr.notNull = true →
      w.isActive activityTimeout now = true) ∧
    (w.lastReceive ≤ now → now < U64 →
      (w.isActive activityTimeout now = true ↔
        (w.addr.notNull = true ∧
          (w.fixed = true ∨ now - w.lastReceive < activityTimeout)))) ∧
    (w.fixed = false → w.lastReceive ≤ now → now < U64 →
      activityTimeout ≤ now - w.lastReceive →
      w.isActive activityTimeout now = false) := by
  refine ⟨?_, ?_, ?_⟩
  · intro hf ha
    simp [WanPath.isActive, hf, ha]
  · intro hle hlt
    simp only [WanPath.isActive, sub64_of_le now w.lastReceive hle hlt]
    simp
  · intro hf hle hlt hto
    simp only [WanPath.isActive, sub64_of_le now w.lastReceive hle hlt]
    simp [hf]
    omega

/-- Witness for C5 at concrete inputs. -/
theorem isActive_characterization_witness :
    ({ WanPath.init with
       addr := InetAddress.ipv4 [10, 0, 0, 1] 9993,
       fixed := true }).isActive sampleTimeout 999999999 = true ∧
    (path4Live.isActive sampleTimeout 5000 = true ↔
      (path4Live.addr.notNull = true ∧
        (path4Live.fixed = true ∨ 5000 - path4Live.lastReceive < sampleTimeout))) ∧
    path4Live.isActive sampleTimeout 242000 = false :=
  ⟨(isActive_characterization sampleTimeout _ 999999999).1 rfl (by decide),
   (isActive_characterization sampleTimeout path4Live 5000).2.1 (by decide) (by norm_num [path4Live, WanPath.init, U64]),
   (isActive_characterization sampleTimeout path4Live 242000).2.2 rfl (by decide)
     (by norm_num [path4Live, WanPath.init, U64]) (by decide)⟩

/-- C9 counterexample: a receive timestamp far enough in the future wraps the
`uint64_t` age around and makes a non-fixed path active: with
`lastReceive = 2 ^ 64 - 1` and `now = 0` the computed age is `1`, below the
timeout, so `isActive` is true — refuting "a future `lastReceive` never makes
a non-fixed path active". -/
theorem isActive_future_counterexample :
    ({ WanPath.init with
       addr := InetAddress.ipv4 [10, 0, 0, 1] 9993,
       lastReceive := U64 - 1 } : WanPath).fixed = false ∧
    ({ WanPath.init with
       addr := InetAddress.ipv4 [10, 0, 0, 1] 9993,
       lastReceive := U64 - 1 } : WanPath).lastReceive > 0 ∧
    ({ WanPath.init with
       addr := InetAddress.ipv4 [10, 0, 0, 1] 9993,
       lastReceive := U64 - 1 } : WanPath).isActive sampleTimeout 0 = true := by
  refine ⟨rfl, by norm_num [WanPath.init, U64], ?_⟩
  have h := sub64_of_wrap 0 (U64 - 1) (by norm_num [U64]) (by norm_num [U64])
  simp [WanPath.isActive, InetAddress.notNull, h, WanPath.init]
  norm_num [U64, sampleTimeout]

/-- C9 as amended: for a non-fixed path with a non-null address and a future
receive timestamp (`now < lastReceive`, both in `uint64_t` range), the age is
computed modulo `2 ^ 64`, and `isActive(now)` is false exactly when
`lastReceive - now ≤ 2 ^ 64 -` timeout; in the remaining (wrap-around) region
`lastReceive - now > 2 ^ 64 -` timeout the path counts as active. -/
theorem isActive_future (activityTimeout : Nat) (w : WanPath) (now : Nat)
    (hf : w.fixed = false) (ha : w.addr.notNull = true)
    (hfuture : now < w.lastReceive) (hlt : w.lastReceive < U64) :
    w.isActive activityTimeout now = false ↔
      w.lastReceive - now ≤ U64 - activityTimeout := by
  have h := sub64_of_wrap now w.lastReceive hfuture hlt
  have hU : U64 = 18446744073709551616 := by norm_num [U64]
  rw [hU] at h hlt
  simp [WanPath.isActive, hf, ha, h]
  rw [hU]
  omega

/-- Witness for the amended C9 at concrete inputs. -/
theorem isActive_future_witness :
    (({ WanPath.init with
        addr := InetAddress.ipv4 [10, 0, 0, 1] 9993,
        lastReceive := 900000 } : WanPath).isActive sampleTimeout 10 = false ↔
      900000 - 10 ≤ U64 - sampleTimeout) :=
  isActive_future sampleTimeout _ 10 rfl rfl (by norm_num [WanPath.init])
    (by norm_num [WanPath.init, U64])


/-- C6: `addDirectLatencyMeasurment` first clamps the sample to [0, 65535];
if the stored estimate lies in the open interval (0, 10000) it stores the
arithmetic mean of old estimate and clamped sample, otherwise it stores the
clamped sample outright.  From estimate 0, feeding 100 then 200 yields 150;
a raw sample of 70000 stores 65535.  `latency()` returns the estimate
re-clamped to [0, 65535]. -/
theorem addDirectLatencyMeasurment_spec (p : Peer) (l : Nat) :
    ((p.addDirectLatencyMeasurment l)._latency =
      if 0 < p._latency ∧ p._latency < 10000 then (p._latency + min l 65535) / 2
      else min l 65535) ∧
    (p._latency = 0 →
      ((p.addDirectLatencyMeasurment 100).addDirectLatencyMeasurment 200)._latency = 150) ∧
    (p._latency = 0 → (p.addDirectLatencyMeasurment 70000)._latency = 65535) ∧
    p.latency = min p._latency 65535 := by
  refine ⟨?_, ?_, ?_, rfl⟩
  · simp only [Peer.addDirectLatencyMeasurment]
    rcases Nat.lt_or_ge 65535 l with h | h
    · simp [h, Nat.min_def, Nat.le_of_lt h]
    · simp [Nat.not_lt.mpr h, Nat.min_def, h]
  · intro h0
    simp [Peer.addDirectLatencyMeasurment, h0]
  · intro h0
    simp [Peer.addDirectLatencyMeasurment, h0]

/-- Witness for C6 at concrete inputs. -/
theorem addDirectLatencyMeasurment_spec_witness :
    ((basePeer.addDirectLatencyMeasurment 100).addDirectLatencyMeasurment 200)._latency = 150 ∧
    (basePeer.addDirectLatencyMeasurment 70000)._latency = 65535 :=
  ⟨(addDirectLatencyMeasurment_spec basePeer 0).2.1 rfl,
   (addDirectLatencyMeasurment_spec basePeer 0).2.2.1 rfl⟩

/-- C7: `forgetDirectPaths(false)` zeroes exactly the non-fixed paths'
addresses and leaves fixed ones untouched; `forgetDirectPaths(true)` zeroes
both addresses; every other field of the record (both `fixed` flags, ports,
timestamps, identity, secret, version and latency) is unchanged. -/
theorem forgetDirectPaths_spec (p : Peer) (fixedToo : Bool) :
    ((p.forgetDirectPaths false)._ipv4p.addr =
      if p._ipv4p.fixed then p._ipv4p.addr else InetAddress.null) ∧
    ((p.forgetDirectPaths false)._ipv6p.addr =
      if p._ipv6p.fixed then p._ipv6p.addr else InetAddress.null) ∧
    (p.forgetDirectPaths true)._ipv4p.addr = InetAddress.null ∧
    (p.forgetDirectPaths true)._ipv6p.addr = InetAddress.null ∧
    (p.forgetDirectPaths fixedToo)._ipv4p.fixed = p._ipv4p.fixed ∧
    (p.forgetDirectPaths fixedToo)._ipv6p.fixed = p._ipv6p.fixed ∧
    (p.forgetDirectPaths fixedToo)._ipv4p.lastSend = p._ipv4p.lastSend ∧
    (p.forgetDirectPaths fixedToo)._ipv4p.lastReceive = p._ipv4p.lastReceive ∧
    (p.forgetDirectPaths fixedToo)._ipv4p.lastFirewallOpener = p._ipv4p.lastFirewallOpener ∧
    (p.forgetDirectPaths fixedToo)._ipv4p.localPort = p._ipv4p.localPort ∧
    (p.forgetDirectPaths fixedToo)._ipv6p.lastSend = p._ipv6p.lastSend ∧
    (p.forgetDirectPaths fixedToo)._ipv6p.lastReceive = p._ipv6p.lastReceive ∧
    (p.forgetDirectPaths fixedToo)._ipv6p.lastFirewallOpener = p._ipv6p.lastFirewallOpener ∧
    (p.forgetDirectPaths fixedToo)._ipv6p.localPort = p._ipv6p.localPort ∧
    (p.forgetDirectPaths fixedToo)._key = p._key ∧
    (p.forgetDirectPaths fixedToo)._id = p._id ∧
    (p.forgetDirectPaths fixedToo)._lastUsed = p._lastUsed ∧
    (p.forgetDirectPaths fixedToo)._lastUnicastFrame = p._lastUnicastFrame ∧
    (p.forgetDirectPaths fixedToo)._lastMulticastFrame = p._lastMulticastFrame ∧
    (p.forgetDirectPaths fixedToo)._lastAnnouncedTo = p._lastAnnouncedTo ∧
    (p.forgetDirectPaths fixedToo)._vMajor = p._vMajor ∧
    (p.forgetDirectPaths fixedToo)._vMinor = p._vMinor ∧
    (p.forgetDirectPaths fixedToo)._vRevision = p._vRevision ∧
    (p.forgetDirectPaths fixedToo)._latency = p._latency := by
  cases h4 : p._ipv4p.fixed <;> cases h6 : p._ipv6p.fixed <;>
    simp [Peer.forgetDirectPaths, h4, h6]

/-- C8: `ipv6Path()` does not return the IPv6 path's address: as written it
returns `_ipv4p.addr`, so on a peer whose two paths hold distinct addresses
it returns the IPv4 one (`ipv4Path()` is correct).  This evaluates the code
at the failing input `dualStackPeerA`. -/
theorem ipv6Path_returns_ipv4_address :
    (∀ p : Peer, p.ipv6Path = p._ipv4p.addr) ∧
    dualStackPeerA.ipv4Path = dualStackPeerA._ipv4p.addr ∧
    dualStackPeerA.ipv6Path = dualStackPeerA._ipv4p.addr ∧
    dualStackPeerA.ipv6Path ≠ dualStackPeerA._ipv6p.addr ∧
    dualStackPeerA._ipv6p.addr.notNull = true :=
  ⟨fun _ => rfl, rfl, rfl, by decide, by decide⟩

/-- C1: `findCommonGround` evaluates exactly the five cases of the spec's
preference ladder, first match winning (stated as equality with
`findCommonGroundSpec`, the ladder transcribed from the spec's words); in
particular, when both peers' IPv4 and IPv6 paths are all active, the IPv6
pair is returned, never the IPv4 one. -/
theorem findCommonGround_matches_spec (activityTimeout : Nat) (a b : Peer) (now : Nat) :
    Peer.findCommonGround activityTimeout a b now =
      findCommonGroundSpec activityTimeout a b now ∧
    (a._ipv6p.isActive activityTimeout now = true →
     b._ipv6p.isActive activityTimeout now = true →
     a._ipv4p.isActive activityTimeout now = true →
     b._ipv4p.isActive activityTimeout now = true →
     Peer.findCommonGround activityTimeout a b now = (b._ipv6p.addr, a._ipv6p.addr)) := by
  refine ⟨rfl, ?_⟩
  intro ha6 hb6 _ _
  simp [Peer.findCommonGround, ha6, hb6]

/-- Witness for C1: two dual-stack peers with all four paths active get the
IPv6 pairing. -/
theorem findCommonGround_matches_spec_witness :
    Peer.findCommonGround sampleTimeout dualStackPeerA dualStackPeerB 3000 =
      (dualStackPeerB._ipv6p.addr, dualStackPeerA._ipv6p.addr) :=
  (findCommonGround_matches_spec sampleTimeout dualStackPeerA dualStackPeerB 3000).2
    (by decide) (by decide) (by decide) (by decide)

/-- C2: swapping the two peer arguments swaps the two returned elements, for
every combination of path states; and the result depends only on the two
records' path-state fields (and `now` and the timeout constant) — peers that
agree on both `WanPath` records yield the same result, so no other state is
consulted. -/
theorem findCommonGround_swap (activityTimeout : Nat) (a b : Peer) (now : Nat) :
    Peer.findCommonGround activityTimeout b a now =
      ((Peer.findCommonGround activityTimeout a b now).2,
       (Peer.findCommonGround activityTimeout a b now).1) ∧
    (∀ a2 b2 : Peer, a2._ipv4p = a._ipv4p → a2._ipv6p = a._ipv6p →
      b2._ipv4p = b._ipv4p → b2._ipv6p = b._ipv6p →
      Peer.findCommonGround activityTimeout a2 b2 now =
        Peer.findCommonGround activityTimeout a b now) := by
  constructor
  · simp only [Peer.findCommonGround]
    cases h1 : a._ipv6p.isActive activityTimeout now <;>
      cases h2 : b._ipv6p.isActive activityTimeout now <;>
      cases h3 : a._ipv4p.isActive activityTimeout now <;>
      cases h4 : b._ipv4p.isActive activityTimeout now <;>
      cases h5 : a._ipv6p.addr.notNull <;>
      cases h6 : b._ipv6p.addr.notNull <;>
      cases h7 : a._ipv4p.addr.notNull <;>
      cases h8 : b._ipv4p.addr.notNull <;>
      simp [h1, h2, h3, h4, h5, h6, h7, h8]
  · intro a2 b2 ha4 ha6 hb4 hb6
    simp only [Peer.findCommonGround, ha4, ha6, hb4, hb6]

/-- Witness for C2 at concrete peers. -/
theorem findCommonGround_swap_witness :
    Peer.findCommonGround sampleTimeout dualStackPeerB dualStackPeerA 3000 =
      ((Peer.findCommonGround sampleTimeout dualStackPeerA dualStackPeerB 3000).2,
       (Peer.findCommonGround sampleTimeout dualStackPeerA dualStackPeerB 3000).1) ∧
    Peer.findCommonGround sampleTimeout dualStackPeerA dualStackPeerB 3000 =
      Peer.findCommonGround sampleTimeout dualStackPeerA dualStackPeerB 3000 :=
  ⟨(findCommonGround_swap sampleTimeout dualStackPeerA dualStackPeerB 3000).1,
   (findCommonGround_swap sampleTimeout dualStackPeerA dualStackPeerB 3000).2
      dualStackPeerA dualStackPeerB rfl rfl rfl rfl⟩

theorem ok_bind {α β : Type} (a : α) (f : α → Except String β) :
    (Except.ok a >>= f) = f a := rfl

theorem toBytesBE_length (n v : Nat) : (toBytesBE n v).length = n := by
  induction n generalizing v with
  | zero => rfl
  | succ n ih => simp [toBytesBE, ih]

theorem fromBytesBE_snoc (l : List Nat) (x : Nat) :
    fromBytesBE (l ++ [x]) = fromBytesBE l * 256 + x % 256 := by
  simp [fromBytesBE, List.foldl_append]

theorem fromBytesBE_toBytesBE (n v : Nat) (h : v < 256 ^ n) :
    fromBytesBE (toBytesBE n v) = v := by
  induction n generalizing v with
  | zero =>
    simp only [toBytesBE, fromBytesBE, List.foldl_nil]
    omega
  | succ n ih =>
    have h2 : v / 256 < 256 ^ n := by
      rw [Nat.div_lt_iff_lt_mul (by norm_num)]
      calc v < 256 ^ (n + 1) := h
        _ = 256 ^ n * 256 := by ring
    rw [toBytesBE, fromBytesBE_snoc, ih (v / 256) h2]
    omega

theorem drop_len_le (b : List Nat) (p : Nat) (c rest : List Nat)
    (hp : p ≤ b.length) (hd : b.drop p = c ++ rest) :
    b.drop (p + c.length) = rest ∧ p + c.length ≤ b.length := by
  have hlen : b.length - p = c.length + rest.length := by
    have := congrArg List.length hd
    simpa using this
  constructor
  · rw [← List.drop_drop, hd, List.drop_left]
  · omega

theorem readBytes_chunk (b : List Nat) (p : Nat) (c rest : List Nat)
    (hp : p ≤ b.length) (hd : b.drop p = c ++ rest) :
    readBytes b p c.length = Except.ok c := by
  have hlen : b.length - p = c.length + rest.length := by
    have := congrArg List.length hd
    simpa using this
  have hb : p + c.length ≤ b.length := by omega
  simp [readBytes, hb, hd]

theorem readUIntBE_chunk_raw (b : List Nat) (p : Nat) (c rest : List Nat)
    (hp : p ≤ b.length) (hd : b.drop p = c ++ rest) :
    readUIntBE b p c.length = Except.ok (fromBytesBE c) := by
  simp [readUIntBE, readBytes_chunk b p c rest hp hd, Except.map]

theorem readUIntBE_chunk (b : List Nat) (p n v : Nat) (rest : List Nat)
    (hp : p ≤ b.length) (hd : b.drop p = toBytesBE n v ++ rest)
    (hv : v < 256 ^ n) :
    readUIntBE b p n = Except.ok v := by
  have h1 := readBytes_chunk b p (toBytesBE n v) rest hp hd
  rw [toBytesBE_length] at h1
  simp [readUIntBE, h1, fromBytesBE_toBytesBE n v hv, Except.map]

theorem byteAt_chunk (b : List Nat) (p x : Nat) (rest : List Nat)
    (hd : b.drop p = x :: rest) : byteAt b p = Except.ok x := by
  have h1 : (b.drop p)[0]? = some x := by rw [hd]; simp
  rw [List.getElem?_drop, Nat.add_zero] at h1
  simp [byteAt, h1]

/-- C4: `Peer::deserialize` reads the version byte first; when it is not
exactly `ZT_PEER_SERIALIZATION_VERSION` (= 6) it fails with the
format-mismatch error regardless of what the rest of the buffer holds — no
further field is interpreted or consumed, and no field of the target record
is produced. -/
theorem deserialize_version_gate (p0 : Peer) (b : List Nat) (startAt v : Nat)
    (hv : byteAt b startAt = Except.ok v)
    (hne : v ≠ ZT_PEER_SERIALIZATION_VERSION) :
    p0.deserialize b startAt =
      Except.error "Peer: deserialize(): version mismatch" := by
  simp only [Peer.deserialize, hv, ok_bind]
  rw [if_pos hne]

/-- Witness for C4: a buffer whose leading byte is 7. -/
theorem deserialize_version_gate_witness :
    basePeer.deserialize [7] 0 =
      Except.error "Peer: deserialize(): version mismatch" :=
  deserialize_version_gate basePeer [7] 0 7 rfl (by decide)

/-- C10: `WanPath::deserialize` does not reject an unrecognized address-type
tag byte: for every tag other than the null/IPv4/IPv6 tags it raises no
format error, leaves the previously stored address unchanged, consumes zero
address-payload bytes, and reads the fixed-flag byte immediately after the
tag (total 34 bytes: the 32-byte fixed header, the tag, the flag); only a
bounds violation from the buffer collaborator could make it fail. -/
theorem wanPath_deserialize_unknown_tag (w : WanPath) (b : List Nat) (p : Nat)
    (s r f lp : List Nat) (tag fb : Nat) (rest : List Nat)
    (hs : s.length = 8) (hr : r.length = 8) (hf : f.length = 8)
    (hlp : lp.length = 8) (hp : p ≤ b.length)
    (hd : b.drop p = s ++ r ++ f ++ lp ++ tag :: fb :: rest)
    (h0 : tag ≠ tagNull) (h4 : tag ≠ tagIPv4) (h6 : tag ≠ tagIPv6) :
    w.deserialize b p =
      Except.ok ({ lastSend := fromBytesBE s, lastReceive := fromBytesBE r,
                   lastFirewallOpener := fromBytesBE f,
                   localPort := fromBytesBE lp,
                   addr := w.addr, fixed := fb != 0 }, 34) := by
  have hd1 : b.drop p = s ++ (r ++ (f ++ (lp ++ tag :: fb :: rest))) := by
    simpa [List.append_assoc] using hd
  have e1 : readUIntBE b p 8 = Except.ok (fromBytesBE s) := by
    have h := readUIntBE_chunk_raw b p s _ hp hd1
    rwa [hs] at h
  obtain ⟨hd2, hp2⟩ := drop_len_le b p s _ hp hd1
  rw [hs] at hd2 hp2
  have e2 : readUIntBE b (p + 8) 8 = Except.ok (fromBytesBE r) := by
    have h := readUIntBE_chunk_raw b (p + 8) r _ hp2 hd2
    rwa [hr] at h
  obtain ⟨hd3, hp3⟩ := drop_len_le b (p + 8) r _ hp2 hd2
  rw [hr, show p + 8 + 8 = p + 16 from by omega] at hd3 hp3
  have e3 : readUIntBE b (p + 16) 8 = Except.ok (fromBytesBE f) := by
    have h := readUIntBE_chunk_raw b (p + 16) f _ hp3 hd3
    rwa [hf] at h
  obtain ⟨hd4, hp4⟩ := drop_len_le b (p + 16) f _ hp3 hd3
  rw [hf, show p + 16 + 8 = p + 24 from by omega] at hd4 hp4
  have e4 : readUIntBE b (p + 24) 8 = Except.ok (fromBytesBE lp) := by
    have h := readUIntBE_chunk_raw b (p + 24) lp _ hp4 hd4
    rwa [hlp] at h
  obtain ⟨hd5, hp5⟩ := drop_len_le b (p + 24) lp _ hp4 hd4
  rw [hlp, show p + 24 + 8 = p + 32 from by omega] at hd5 hp5
  have etag : byteAt b (p + 32) = Except.ok tag := byteAt_chunk b (p + 32) tag _ hd5
  have hd6 : b.drop (p + 33) = fb :: rest := by
    have h := (drop_len_le b (p + 32) [tag] (fb :: rest) hp5 (by simpa using hd5)).1
    rwa [show p + 32 + List.length [tag] = p + 33 from by simp] at h
  have efb : byteAt b (p + 33) = Except.ok fb := byteAt_chunk b (p + 33) fb rest hd6
  simp only [WanPath.deserialize, e1, e2, e3, e4, etag, ok_bind]
  rw [if_neg h0, if_neg h4, if_neg h6]
  simp only [ok_bind, efb]
  simp only [Except.ok.injEq, Prod.mk.injEq]
  exact ⟨trivial, by omega⟩

/-- Witness for C10: a 34-byte buffer whose tag byte is 99. -/
theorem wanPath_deserialize_unknown_tag_witness :
    WanPath.init.deserialize (List.replicate 32 0 ++ [99, 1]) 0 =
      Except.ok ({ lastSend := 0, lastReceive := 0, lastFirewallOpener := 0,
                   localPort := 0, addr := InetAddress.null, fixed := true }, 34) :=
  wanPath_deserialize_unknown_tag WanPath.init (List.replicate 32 0 ++ [99, 1]) 0
    (List.replicate 8 0) (List.replicate 8 0) (List.replicate 8 0)
    (List.replicate 8 0) 99 1 []
    rfl rfl rfl rfl (Nat.zero_le _) (by decide) (by decide) (by decide) (by decide)

theorem identity_serialize_length (i : Identity) (fl : Bool) :
    (i.serialize fl).length = 2 + i.bytes.length := by
  simp [Identity.serialize, toBytesBE_length]

theorem identity_deserialize_serialize (i : Identity) (b : List Nat) (p : Nat)
    (rest : List Nat) (hlen : i.bytes.length < 65536)
    (hp : p ≤ b.length) (hd : b.drop p = i.serialize false ++ rest) :
    Identity.deserialize b p = Except.ok (i, 2 + i.bytes.length) := by
  obtain ⟨bs⟩ := i
  have hd1 : b.drop p = toBytesBE 2 bs.length ++ (bs ++ rest) := by
    simpa [Identity.serialize, List.append_assoc] using hd
  have e1 : readUIntBE b p 2 = Except.ok bs.length :=
    readUIntBE_chunk b p 2 bs.length _ hp hd1 (by norm_num; exact hlen)
  obtain ⟨hd2, hp2⟩ := drop_len_le b p (toBytesBE 2 bs.length) _ hp hd1
  rw [toBytesBE_length] at hd2 hp2
  have e2 : readBytes b (p + 2) bs.length = Except.ok bs :=
    readBytes_chunk b (p + 2) bs rest hp2 hd2
  simp only [Identity.deserialize, e1, ok_bind, e2]

theorem buffer_reads_header (b : List Nat) (p : Nat) (s r f lp tail : List Nat)
    (hs : s.length = 8) (hr : r.length = 8) (hf : f.length = 8)
    (hlp : lp.length = 8) (hp : p ≤ b.length)
    (hd : b.drop p = s ++ (r ++ (f ++ (lp ++ tail)))) :
    readUIntBE b p 8 = Except.ok (fromBytesBE s) ∧
    readUIntBE b (p + 8) 8 = Except.ok (fromBytesBE r) ∧
    readUIntBE b (p + 16) 8 = Except.ok (fromBytesBE f) ∧
    readUIntBE b (p + 24) 8 = Except.ok (fromBytesBE lp) ∧
    b.drop (p + 32) = tail ∧ p + 32 ≤ b.length := by
  have e1 : readUIntBE b p 8 = Except.ok (fromBytesBE s) := by
    have h := readUIntBE_chunk_raw b p s _ hp hd
    rwa [hs] at h
  obtain ⟨hd2, hp2⟩ := drop_len_le b p s _ hp hd
  rw [hs] at hd2 hp2
  have e2 : readUIntBE b (p + 8) 8 = Except.ok (fromBytesBE r) := by
    have h := readUIntBE_chunk_raw b (p + 8) r _ hp2 hd2
    rwa [hr] at h
  obtain ⟨hd3, hp3⟩ := drop_len_le b (p + 8) r _ hp2 hd2
  rw [hr, show p + 8 + 8 = p + 16 from by omega] at hd3 hp3
  have e3 : readUIntBE b (p + 16) 8 = Except.ok (fromBytesBE f) := by
    have h := readUIntBE_chunk_raw b (p + 16) f _ hp3 hd3
    rwa [hf] at h
  obtain ⟨hd4, hp4⟩ := drop_len_le b (p + 16) f _ hp3 hd3
  rw [hf, show p + 16 + 8 = p + 24 from by omega] at hd4 hp4
  have e4 : readUIntBE b (p + 24) 8 = Except.ok (fromBytesBE lp) := by
    have h := readUIntBE_chunk_raw b (p + 24) lp _ hp4 hd4
    rwa [hlp] at h
  obtain ⟨hd5, hp5⟩ := drop_len_le b (p + 24) lp _ hp4 hd4
  rw [hlp, show p + 24 + 8 = p + 32 from by omega] at hd5 hp5
  exact ⟨e1, e2, e3, e4, hd5, hp5⟩

theorem wanPath_deserialize_serialize (w0 w : WanPath) (b : List Nat) (p : Nat)
    (rest : List Nat) (hw : w.wellFormed) (hp : p ≤ b.length)
    (hd : b.drop p = w.serialize ++ rest) :
    w0.deserialize b p = Except.ok (w, w.serialize.length) := by
  obtain ⟨ls, lr, lf, lport, addr, fx⟩ := w
  have hw2 : ls < U64 ∧ lr < U64 ∧ lf < U64 ∧ lport < U64 ∧
      InetAddress.wellFormed addr := hw
  obtain ⟨h1, h2, h3, h4, ha⟩ := hw2
  have pow8 : (256 : Nat) ^ 8 = U64 := by norm_num [U64]
  rw [← pow8] at h1 h2 h3 h4
  cases addr with
  | null =>
    have hd0 : b.drop p = toBytesBE 8 ls ++ (toBytesBE 8 lr ++ (toBytesBE 8 lf ++
        (toBytesBE 8 lport ++ 0 :: (if fx then 1 else 0) :: rest))) := by
      simpa [WanPath.serialize, InetAddress.typeTag, List.append_assoc] using hd
    obtain ⟨e1, e2, e3, e4, hd5, hp5⟩ := buffer_reads_header b p _ _ _ _ _
      (toBytesBE_length 8 ls) (toBytesBE_length 8 lr) (toBytesBE_length 8 lf)
      (toBytesBE_length 8 lport) hp hd0
    rw [fromBytesBE_toBytesBE 8 ls h1] at e1
    rw [fromBytesBE_toBytesBE 8 lr h2] at e2
    rw [fromBytesBE_toBytesBE 8 lf h3] at e3
    rw [fromBytesBE_toBytesBE 8 lport h4] at e4
    have etag : byteAt b (p + 32) = Except.ok 0 := byteAt_chunk b (p + 32) 0 _ hd5
    have hd6 : b.drop (p + 33) = (if fx then 1 else 0) :: rest := by
      have h := (drop_len_le b (p + 32) [0] _ hp5 (by simpa using hd5)).1
      rwa [show p + 32 + List.length [0] = p + 33 from by simp] at h
    have efb : byteAt b (p + 33) = Except.ok (if fx then 1 else 0) :=
      byteAt_chunk b (p + 33) _ rest hd6
    simp only [WanPath.deserialize, e1, e2, e3, e4, etag, ok_bind]
    rw [if_pos (show (0 : Nat) = tagNull from rfl)]
    simp only [ok_bind, efb]
    have hflen : (WanPath.serialize
        ⟨ls, lr, lf, lport, InetAddress.null, fx⟩).length = 34 := by
      simp [WanPath.serialize, toBytesBE_length, InetAddress.typeTag]
    rw [hflen]
    simp only [Except.ok.injEq, Prod.mk.injEq]
    constructor
    · cases fx <;> simp
    · omega
  | ipv4 ip port =>
    obtain ⟨hiplen, hipb, hport⟩ := ha
    have hd0 : b.drop p = toBytesBE 8 ls ++ (toBytesBE 8 lr ++ (toBytesBE 8 lf ++
        (toBytesBE 8 lport ++ 2 :: (ip ++
          (toBytesBE 2 port ++ (if fx then 1 else 0) :: rest))))) := by
      simpa [WanPath.serialize, InetAddress.typeTag, List.append_assoc] using hd
    obtain ⟨e1, e2, e3, e4, hd5, hp5⟩ := buffer_reads_header b p _ _ _ _ _
      (toBytesBE_length 8 ls) (toBytesBE_length 8 lr) (toBytesBE_length 8 lf)
      (toBytesBE_length 8 lport) hp hd0
    rw [fromBytesBE_toBytesBE 8 ls h1] at e1
    rw [fromBytesBE_toBytesBE 8 lr h2] at e2
    rw [fromBytesBE_toBytesBE 8 lf h3] at e3
    rw [fromBytesBE_toBytesBE 8 lport h4] at e4
    have etag : byteAt b (p + 32) = Except.ok 2 := byteAt_chunk b (p + 32) 2 _ hd5
    obtain ⟨hd6, hp6⟩ := drop_len_le b (p + 32) [2] _ hp5 (by simpa using hd5)
    rw [show p + 32 + List.length [2] = p + 33 from by simp] at hd6 hp6
    have eip : readBytes b (p + 33) 4 = Except.ok ip := by
      have h := readBytes_chunk b (p + 33) ip _ hp6 hd6
      rwa [hiplen] at h
    obtain ⟨hd7, hp7⟩ := drop_len_le b (p + 33) ip _ hp6 hd6
    rw [hiplen, show p + 33 + 4 = p + 37 from by omega] at hd7 hp7
    have eport : readUIntBE b (p + 37) 2 = Except.ok port :=
      readUIntBE_chunk b (p + 37) 2 port _ hp7 hd7 (by norm_num; exact hport)
    obtain ⟨hd8, hp8⟩ := drop_len_le b (p + 37) (toBytesBE 2 port) _ hp7 hd7
    rw [toBytesBE_length, show p + 37 + 2 = p + 39 from by omega] at hd8 hp8
    have efb : byteAt b (p + 39) = Except.ok (if fx then 1 else 0) :=
      byteAt_chunk b (p + 39) _ rest hd8
    simp only [WanPath.deserialize, e1, e2, e3, e4, etag, ok_bind]
    rw [if_neg (show (2 : Nat) ≠ tagNull from by decide),
        if_pos (show (2 : Nat) = tagIPv4 from rfl)]
    simp only [ok_bind, eip, eport, efb]
    have hflen : (WanPath.serialize
        ⟨ls, lr, lf, lport, InetAddress.ipv4 ip port, fx⟩).length = 40 := by
      simp [WanPath.serialize, toBytesBE_length, InetAddress.typeTag, hiplen]
    rw [hflen]
    simp only [Except.ok.injEq, Prod.mk.injEq]
    constructor
    · cases fx <;> simp
    · omega
  | ipv6 ip port =>
    obtain ⟨hiplen, hipb, hport⟩ := ha
    have hd0 : b.drop p = toBytesBE 8 ls ++ (toBytesBE 8 lr ++ (toBytesBE 8 lf ++
        (toBytesBE 8 lport ++ 10 :: (ip ++
          (toBytesBE 2 port ++ (if fx then 1 else 0) :: rest))))) := by
      simpa [WanPath.serialize, InetAddress.typeTag, List.append_assoc] using hd
    obtain ⟨e1, e2, e3, e4, hd5, hp5⟩ := buffer_reads_header b p _ _ _ _ _
      (toBytesBE_length 8 ls) (toBytesBE_length 8 lr) (toBytesBE_length 8 lf)
      (toBytesBE_length 8 lport) hp hd0
    rw [fromBytesBE_toBytesBE 8 ls h1] at e1
    rw [fromBytesBE_toBytesBE 8 lr h2] at e2
    rw [fromBytesBE_toBytesBE 8 lf h3] at e3
    rw [fromBytesBE_toBytesBE 8 lport h4] at e4
    have etag : byteAt b (p + 32) = Except.ok 10 := byteAt_chunk b (p + 32) 10 _ hd5
    obtain ⟨hd6, hp6⟩ := drop_len_le b (p + 32) [10] _ hp5 (by simpa using hd5)
    rw [show p + 32 + List.length [10] = p + 33 from by simp] at hd6 hp6
    have eip : readBytes b (p + 33) 16 = Except.ok ip := by
      have h := readBytes_chunk b (p + 33) ip _ hp6 hd6
      rwa [hiplen] at h
    obtain ⟨hd7, hp7⟩ := drop_len_le b (p + 33) ip _ hp6 hd6
    rw [hiplen, show p + 33 + 16 = p + 49 from by omega] at hd7 hp7
    have eport : readUIntBE b (p + 49) 2 = Except.ok port :=
      readUIntBE_chunk b (p + 49) 2 port _ hp7 hd7 (by norm_num; exact hport)
    obtain ⟨hd8, hp8⟩ := drop_len_le b (p + 49) (toBytesBE 2 port) _ hp7 hd7
    rw [toBytesBE_length, show p + 49 + 2 = p + 51 from by omega] at hd8 hp8
    have efb : byteAt b (p + 51) = Except.ok (if fx then 1 else 0) :=
      byteAt_chunk b (p + 51) _ rest hd8
    simp only [WanPath.deserialize, e1, e2, e3, e4, etag, ok_bind]
    rw [if_neg (show (10 : Nat) ≠ tagNull from by decide),
        if_neg (show (10 : Nat) ≠ tagIPv4 from by decide),
        if_pos (show (10 : Nat) = tagIPv6 from rfl)]
    simp only [ok_bind, eip, eport, efb]
    have hflen : (WanPath.serialize
        ⟨ls, lr, lf, lport, InetAddress.ipv6 ip port, fx⟩).length = 52 := by
      simp [WanPath.serialize, toBytesBE_length, InetAddress.typeTag, hiplen]
    rw [hflen]
    simp only [Except.ok.injEq, Prod.mk.injEq]
    constructor
    · cases fx <;> simp
    · omega

theorem peer_deserialize_serialize (p0 q : Peer) (b : List Nat) (pos : Nat)
    (rest : List Nat) (hq : q.wellFormed) (hp : pos ≤ b.length)
    (hd : b.drop pos = q.serialize ++ rest) :
    p0.deserialize b pos = Except.ok (q, q.serialize.length) := by
  obtain ⟨key, idv, w4, w6, t1, t2, t3, t4, v1, v2, v3, lat⟩ := q
  have hq2 : key.length = ZT_PEER_SECRET_KEY_LENGTH ∧ idv.bytes.length < 65536 ∧
      w4.wellFormed ∧ w6.wellFormed ∧ t1 < U64 ∧ t2 < U64 ∧ t3 < U64 ∧
      t4 < U64 ∧ v1 < 65536 ∧ v2 < 65536 ∧ v3 < 65536 ∧ lat < 65536 := hq
  obtain ⟨hkey, hid, hw4, hw6, ht1, ht2, ht3, ht4, hv1, hv2, hv3, hlat⟩ := hq2
  have pow8 : (256 : Nat) ^ 8 = U64 := by norm_num [U64]
  rw [← pow8] at ht1 ht2 ht3 ht4
  have hd0 : b.drop pos = 6 :: (key ++ (Identity.serialize idv false ++
      (WanPath.serialize w4 ++ (WanPath.serialize w6 ++ (toBytesBE 8 t1 ++
      (toBytesBE 8 t2 ++ (toBytesBE 8 t3 ++ (toBytesBE 8 t4 ++
      (toBytesBE 2 v1 ++ (toBytesBE 2 v2 ++ (toBytesBE 2 v3 ++
      (toBytesBE 2 lat ++ rest)))))))))))) := by
    simpa [Peer.serialize, ZT_PEER_SERIALIZATION_VERSION, List.append_assoc] using hd
  have ever : byteAt b pos = Except.ok 6 := byteAt_chunk b pos 6 _ hd0
  obtain ⟨hdk, hpk⟩ := drop_len_le b pos [6] _ hp (by simpa using hd0)
  rw [show pos + List.length [6] = pos + 1 from by simp] at hdk hpk
  have ekey : readBytes b (pos + 1) ZT_PEER_SECRET_KEY_LENGTH = Except.ok key := by
    have h := readBytes_chunk b (pos + 1) key _ hpk hdk
    rwa [hkey] at h
  obtain ⟨hdi, hpi⟩ := drop_len_le b (pos + 1) key _ hpk hdk
  rw [hkey] at hdi hpi
  have eid : Identity.deserialize b (pos + 1 + ZT_PEER_SECRET_KEY_LENGTH) =
      Except.ok (idv, 2 + idv.bytes.length) :=
    identity_deserialize_serialize idv b _ _ hid hpi hdi
  obtain ⟨hdw4, hpw4⟩ := drop_len_le b (pos + 1 + ZT_PEER_SECRET_KEY_LENGTH)
      (Identity.serialize idv false) _ hpi hdi
  rw [identity_serialize_length] at hdw4 hpw4
  have ew4 : WanPath.deserialize p0._ipv4p b
      (pos + 1 + ZT_PEER_SECRET_KEY_LENGTH + (2 + idv.bytes.length)) =
      Except.ok (w4, w4.serialize.length) :=
    wanPath_deserialize_serialize p0._ipv4p w4 b _ _ hw4 hpw4 hdw4
  obtain ⟨hdw6, hpw6⟩ := drop_len_le b
      (pos + 1 + ZT_PEER_SECRET_KEY_LENGTH + (2 + idv.bytes.length))
      (WanPath.serialize w4) _ hpw4 hdw4
  have ew6 : WanPath.deserialize p0._ipv6p b
      (pos + 1 + ZT_PEER_SECRET_KEY_LENGTH + (2 + idv.bytes.length) +
        (WanPath.serialize w4).length) =
      Except.ok (w6, w6.serialize.length) :=
    wanPath_deserialize_serialize p0._ipv6p w6 b _ _ hw6 hpw6 hdw6
  obtain ⟨hdt, hpt⟩ := drop_len_le b
      (pos + 1 + ZT_PEER_SECRET_KEY_LENGTH + (2 + idv.bytes.length) +
        (WanPath.serialize w4).length)
      (WanPath.serialize w6) _ hpw6 hdw6
  obtain ⟨eT1, eT2, eT3, eT4, hdv, hpv⟩ := buffer_reads_header b
      (pos + 1 + ZT_PEER_SECRET_KEY_LENGTH + (2 + idv.bytes.length) +
        (WanPath.serialize w4).length + (WanPath.serialize w6).length)
      _ _ _ _ _
      (toBytesBE_length 8 t1) (toBytesBE_length 8 t2) (toBytesBE_length 8 t3)
      (toBytesBE_length 8 t4) hpt hdt
  rw [fromBytesBE_toBytesBE 8 t1 ht1] at eT1
  rw [fromBytesBE_toBytesBE 8 t2 ht2] at eT2
  rw [fromBytesBE_toBytesBE 8 t3 ht3] at eT3
  rw [fromBytesBE_toBytesBE 8 t4 ht4] at eT4
  have ev1 : readUIntBE b
      (pos + 1 + ZT_PEER_SECRET_KEY_LENGTH + (2 + idv.bytes.length) +
        (WanPath.serialize w4).length + (WanPath.serialize w6).length + 32) 2 =
      Except.ok v1 :=
    readUIntBE_chunk b _ 2 v1 _ hpv hdv (by norm_num; exact hv1)
  obtain ⟨hdv2, hpv2⟩ := drop_len_le b
      (pos + 1 + ZT_PEER_SECRET_KEY_LENGTH + (2 + idv.bytes.length) +
        (WanPath.serialize w4).length + (WanPath.serialize w6).length + 32)
      (toBytesBE 2 v1) _ hpv hdv
  rw [toBytesBE_length,
      show pos + 1 + ZT_PEER_SECRET_KEY_LENGTH + (2 + idv.bytes.length) +
        (WanPath.serialize w4).length + (WanPath.serialize w6).length + 32 + 2 =
        pos + 1 + ZT_PEER_SECRET_KEY_LENGTH + (2 + idv.bytes.length) +
        (WanPath.serialize w4).length + (WanPath.serialize w6).length + 34
        from by omega] at hdv2 hpv2
  have ev2 : readUIntBE b
      (pos + 1 + ZT_PEER_SECRET_KEY_LENGTH + (2 + idv.bytes.length) +
        (WanPath.serialize w4).length + (WanPath.serialize w6).length + 34) 2 =
      Except.ok v2 :=
    readUIntBE_chunk b _ 2 v2 _ hpv2 hdv2 (by norm_num; exact hv2)
  obtain ⟨hdv3, hpv3⟩ := drop_len_le b
      (pos + 1 + ZT_PEER_SECRET_KEY_LENGTH + (2 + idv.bytes.length) +
        (WanPath.serialize w4).length + (WanPath.serialize w6).length + 34)
      (toBytesBE 2 v2) _ hpv2 hdv2
  rw [toBytesBE_length,
      show pos + 1 + ZT_PEER_SECRET_KEY_LENGTH + (2 + idv.bytes.length) +
        (WanPath.serialize w4).length + (WanPath.serialize w6).length + 34 + 2 =
        pos + 1 + ZT_PEER_SECRET_KEY_LENGTH + (2 + idv.bytes.length) +
        (WanPath.serialize w4).length + (WanPath.serialize w6).length + 36
        from by omega] at hdv3 hpv3
  have ev3 : readUIntBE b
      (pos + 1 + ZT_PEER_SECRET_KEY_LENGTH + (2 + idv.bytes.length) +
        (WanPath.serialize w4).length + (WanPath.serialize w6).length + 36) 2 =
      Except.ok v3 :=
    readUIntBE_chunk b _ 2 v3 _ hpv3 hdv3 (by norm_num; exact hv3)
  obtain ⟨hdv4, hpv4⟩ := drop_len_le b
      (pos + 1 + ZT_PEER_SECRET_KEY_LENGTH + (2 + idv.bytes.length) +
        (WanPath.serialize w4).length + (WanPath.serialize w6).length + 36)
      (toBytesBE 2 v3) _ hpv3 hdv3
  rw [toBytesBE_length,
      show pos + 1 + ZT_PEER_SECRET_KEY_LENGTH + (2 + idv.bytes.length) +
        (WanPath.serialize w4).length + (WanPath.serialize w6).length + 36 + 2 =
        pos + 1 + ZT_PEER_SECRET_KEY_LENGTH + (2 + idv.bytes.length) +
        (WanPath.serialize w4).length + (WanPath.serialize w6).length + 38
        from by omega] at hdv4 hpv4
  have elat : readUIntBE b
      (pos + 1 + ZT_PEER_SECRET_KEY_LENGTH + (2 + idv.bytes.length) +
        (WanPath.serialize w4).length + (WanPath.serialize w6).length + 38) 2 =
      Except.ok lat :=
    readUIntBE_chunk b _ 2 lat _ hpv4 hdv4 (by norm_num; exact hlat)
  have hserlen : (Peer.serialize
      ⟨key, idv, w4, w6, t1, t2, t3, t4, v1, v2, v3, lat⟩).length =
      1 + key.length + (2 + idv.bytes.length) + (WanPath.serialize w4).length +
        (WanPath.serialize w6).length + 40 := by
    simp [Peer.serialize, List.length_append, toBytesBE_length,
      identity_serialize_length]
    omega
  simp only [Peer.deserialize, ever, ok_bind]
  rw [if_neg (show ¬((6 : Nat) ≠ ZT_PEER_SERIALIZATION_VERSION) from by decide)]
  simp only [ekey, ok_bind, eid, ew4, ew6, eT1, eT2, eT3, eT4, ev1, ev2, ev3, elat]
  rw [hserlen]
  simp only [Except.ok.injEq, Prod.mk.injEq]
  exact ⟨trivial, by omega⟩

set_option maxRecDepth 8192 in
/-- C3 counterexample: the codec does not reproduce every field of every
populated record.  `_vMajor` is a full `unsigned int` (set unchecked by
`setRemoteVersion`) but the codec writes it as a `uint16_t`: serializing
`overflowPeer` (whose `_vMajor` is 65536) and deserializing the bytes yields
a record with `_vMajor = 0` — i.e. exactly `basePeer`, not `overflowPeer`. -/
theorem peer_roundtrip_counterexample :
    Peer.deserialize basePeer overflowPeer.serialize 0 =
      Except.ok (basePeer, overflowPeer.serialize.length) ∧
    overflowPeer._vMajor = 65536 ∧ basePeer._vMajor = 0 ∧
    basePeer ≠ overflowPeer := by
  refine ⟨rfl, rfl, rfl, by decide⟩

/-- C3 as amended: for every record whose fields are representable in the
widths the codec writes (64-bit timestamps, 16-bit version components and
latency, well-formed addresses, key of the configured length), serializing
and then deserializing into any target record reproduces every field exactly,
and deserialize returns the total bytes consumed, which equals the length of
the original encoding; since the decoded record equals the original,
re-serializing it yields byte-identical output. -/
theorem peer_roundtrip (target q : Peer) (hq : q.wellFormed) :
    Peer.deserialize target q.serialize 0 =
      Except.ok (q, q.serialize.length) :=
  peer_deserialize_serialize target q q.serialize 0 [] hq (Nat.zero_le _)
    (by simp)

/-- Witness for the amended C3: a concrete populated dual-stack record
round-trips through the codec. -/
theorem peer_roundtrip_witness :
    Peer.deserialize basePeer dualStackPeerA.serialize 0 =
      Except.ok (dualStackPeerA, dualStackPeerA.serialize.length) :=
  peer_roundtrip basePeer dualStackPeerA (by decide)
